import Mathlib

/-!
Shallow embedding of conky's scrolling-text field (src/scroll.c):
`parse_scroll_arg` (configuration) and `print_scroll` (per-refresh render).

Texts are modelled as `List Nat` of byte values; the C NUL terminator is
implicit at the end of the list, and reading a byte at an index past the
end of the list yields `0` (the terminator), matching `List.getD _ _ 0`.
The style-reset escape appended by `new_fg` at the end of the scrolling
path (under `#ifdef X11`) is modelled abstractly as a Boolean flag on the
render result, since `new_fg` lives outside the embedded core.
-/

namespace Scroll

/-- Byte value of the zero-width style-change marker (`SPECIAL_CHAR`). -/
def SPECIAL_CHAR : Nat := 1

/-- Byte value of the newline character remapped by `print_scroll`. -/
def NEWLINE : Nat := 10

/-- Byte value of `LINESEPARATOR` (`'|'`), substituted for newlines. -/
def LINESEPARATOR : Nat := 124

/-- C `isspace` on the bytes relevant here: space and the control range
`\t`..`\r`, as skipped by a whitespace directive in `sscanf`. -/
def isSpace (c : Nat) : Bool := c == 32 || (9 ≤ c && c ≤ 13)

/-- Decimal digit test, as used by the `%u` conversion. -/
def isDigit (c : Nat) : Bool := 48 ≤ c && c ≤ 57

/-- Value of a run of decimal digit bytes, most significant first. -/
def digitsVal (l : List Nat) : Nat := l.foldl (fun acc c => acc * 10 + (c - 48)) 0

/-- Condition under which the `%u` conversion accepts the head of the
input: after skipping leading whitespace and at most one `+` or `-` sign
byte, a decimal digit follows (the conversion matches an optionally
signed decimal integer, as converted by `strtoul`). -/
def acceptsU (s : List Nat) : Bool :=
  let r := s.dropWhile isSpace
  let r2 := r.drop (if r.headD 0 == 43 || r.headD 0 == 45 then 1 else 0)
  isDigit (r2.headD 0)

/-- Model of `sscanf(s, "%u %n", &v, &n)`: skip leading whitespace, read
an optionally signed nonempty run of decimal digits (no digit after the
optional sign yields `none`, covering both the matching-failure and EOF
cases of the C call, `sscanf(...) <= 0`), then skip trailing whitespace;
returns the converted value (negated for a `-` sign, as by `strtoul`,
and reduced to the range of `unsigned int`) and the number of bytes
consumed. -/
def scanU (s : List Nat) : Option (Nat × Nat) :=
  let ws := (s.takeWhile isSpace).length
  let r := s.drop ws
  let sign := if r.headD 0 == 43 || r.headD 0 == 45 then 1 else 0
  let r2 := r.drop sign
  let ds := r2.takeWhile isDigit
  if ds.isEmpty then none
  else
    let v := digitsVal ds % 4294967296
    let v2 := if r.headD 0 == 45 then (4294967296 - v) % 4294967296 else v
    let r3 := r2.drop ds.length
    let ws2 := (r3.takeWhile isSpace).length
    some (v2, ws + sign + ds.length + ws2)

/-- The scroll fields set up by `parse_scroll_arg` on the text object:
`show` (the visible width, here `show_` since `show` is reserved), `step`,
the stored `text` (width-many spaces prepended to the literal tail), and
the cursor `start`. -/
structure ScrollConfig where
  show_ : Nat
  step : Nat
  text : List Nat
  start : Nat
deriving DecidableEq, Repr

/-- Model of `parse_scroll_arg`: `none` models the `CRIT_ERR` abort (taken
when the argument is NULL or the first `sscanf` returns `<= 0`). Otherwise
the first integer token is `show`; a second integer token is consumed as
`step` only when some text follows it (`*(arg + n1 + n2)` nonzero),
else `step` is reset to 1 and the token is left as part of the text.
The stored text is `show` spaces concatenated with the remaining tail. -/
def parse_scroll_arg (arg : Option (List Nat)) : Option ScrollConfig :=
  match arg with
  | none => none
  | some a =>
    match scanU a with
    | none => none
    | some (w, n1) =>
      let sp : Nat × Nat :=
        match scanU (a.drop n1) with
        | none => (1, n1)
        | some (st, n2) => if a.drop (n1 + n2) = [] then (1, n1) else (st, n1 + n2)
      some { show_ := w, step := sp.1,
             text := List.replicate w 32 ++ a.drop sp.2, start := 0 }

/-- The newline-to-separator remapping pass of `print_scroll` (the loop
over `buf` that overwrites `'\n'` with `LINESEPARATOR`). -/
def remapLines (buf : List Nat) : List Nat :=
  buf.map (fun c => if c = NEWLINE then LINESEPARATOR else c)

/-- Number of `SPECIAL_CHAR` bytes in a byte sequence (`colorchanges`
as counted by the same preprocessing loop). -/
def countSpecial (l : List Nat) : Nat := l.countP (fun c => c == SPECIAL_CHAR)

/-- Printable length of a byte sequence: total bytes minus marker bytes. -/
def printableCount (l : List Nat) : Nat := l.length - countSpecial l

/-- Model of the marker-skipping loop
`while (*(buf + start) == SPECIAL_CHAR) start++;`:
the cursor advances past the run of consecutive marker bytes beginning at
`start` (past the end of the list every byte reads as the terminator `0`,
which stops the loop). -/
def skipMarkers (buf : List Nat) (start : Nat) : Nat :=
  start + ((buf.drop start).takeWhile (fun c => c == SPECIAL_CHAR)).length

/-- Result of the window-fill loop: the bytes copied into `p`, the
`visibcolorchanges` count, and whether the loop copied the terminator and
returned early (`if (!p[j]) return;`). -/
structure FillResult where
  window : List Nat
  visib : Nat
  hitTerm : Bool
deriving DecidableEq, Repr

/-- Model of the window-fill loop
`for (j = 0; j < show + visibcolorchanges; j++) ...` operating on the
byte sequence starting at the cursor (`buf + start`): each marker byte is
copied and raises the loop bound by one, each ordinary byte is copied and
consumes one unit of the visible width, and copying the terminator (a `0`
byte, in particular the implicit terminator at the end of the list) stops
everything with `hitTerm = true`. `need` is the number of non-marker bytes
still to copy, i.e. `show + visibcolorchanges - j`. -/
def fillWin : List Nat → Nat → FillResult
  | _, 0 => ⟨[], 0, false⟩
  | [], _ + 1 => ⟨[], 0, true⟩
  | c :: rest, need + 1 =>
    if c = 0 then ⟨[], 0, true⟩
    else if c = SPECIAL_CHAR then
      let r := fillWin rest (need + 1)
      ⟨c :: r.window, r.visib + 1, r.hitTerm⟩
    else
      let r := fillWin rest need
      ⟨c :: r.window, r.visib, r.hitTerm⟩

/-- Result of one `print_scroll` call: the bytes written to the caller's
buffer `p` (up to the C terminator), whether the X11 style-reset escape
was appended at the end (`new_fg`), and the new cursor value. -/
structure RenderResult where
  out : List Nat
  reset : Bool
  start : Nat
deriving DecidableEq, Repr

/-- Model of `print_scroll`, taking the scroll state (`show`, `step`,
`start`), the text produced by `generate_text_internal` for this call,
and `p_max_size`. Path by path:
short-circuit (`strlen(buf) - colorchanges <= show`) copies the remapped
text via `snprintf`, hence truncated to `p_max_size - 1` bytes;
otherwise markers at the cursor are skipped (mutating `start`), the
window is filled, and if the fill copied the terminator the function
returns right there (partial window, no marker redistribution, no
style reset, no step advance). On the completed path the output is
`frontcolorchanges` markers, the window, then the remaining markers
(written by `strcpy`, i.e. not bounded by `p_max_size`), the cursor
advances by `step` and wraps to 0 when the byte there is the
terminator, and the style-reset escape is appended. -/
def print_scroll (show_ step start : Nat) (buf0 : List Nat) (p_max_size : Nat) :
    RenderResult :=
  let buf := remapLines buf0
  let colorchanges := countSpecial buf
  if buf.length - colorchanges ≤ show_ then
    { out := buf.take (p_max_size - 1), reset := false, start := start }
  else
    let s1 := skipMarkers buf start
    let f := fillWin (buf.drop s1) show_
    if f.hitTerm then
      { out := f.window, reset := false, start := s1 }
    else
      let frontcolorchanges := countSpecial (buf.take s1)
      let trailing := colorchanges - frontcolorchanges - f.visib
      let pw := List.replicate frontcolorchanges SPECIAL_CHAR ++ f.window ++
                  List.replicate trailing SPECIAL_CHAR
      let s2 := s1 + step
      { out := pw, reset := true, start := if buf.getD s2 0 = 0 then 0 else s2 }

/-! ### Helper lemmas -/

theorem countSpecial_append (l l' : List Nat) :
    countSpecial (l ++ l') = countSpecial l + countSpecial l' :=
  List.countP_append _ _ _

theorem countSpecial_replicate (k : Nat) :
    countSpecial (List.replicate k SPECIAL_CHAR) = k := by
  induction k with
  | zero => rfl
  | succ n ih =>
    simp only [List.replicate_succ, countSpecial, List.countP_cons] at *
    simp [ih]

theorem countSpecial_le_length (l : List Nat) : countSpecial l ≤ l.length :=
  List.countP_le_length _

theorem getD_ne_zero_lt {l : List Nat} {i : Nat} (h : l.getD i 0 ≠ 0) :
    i < l.length := by
  by_contra hc
  push_neg at hc
  exact h (List.getD_eq_default _ _ hc)

theorem skipMarkers_le {l : List Nat} {start : Nat} (h : start ≤ l.length) :
    skipMarkers l start ≤ l.length := by
  have h1 : ((l.drop start).takeWhile (fun c => c == SPECIAL_CHAR)).length ≤
      (l.drop start).length :=
    List.Sublist.length_le (List.takeWhile_sublist _)
  have h2 : (l.drop start).length = l.length - start := List.length_drop _ _
  unfold skipMarkers
  omega

theorem drop_length_takeWhile (p : Nat → Bool) (l : List Nat) :
    l.drop (l.takeWhile p).length = l.dropWhile p := by
  induction l with
  | nil => rfl
  | cons c t ih =>
    by_cases hc : p c <;>
      simp [List.takeWhile_cons, List.dropWhile_cons, hc, ih]

/-- A completed window fill (one that never copied the terminator) produced
a window that is a front part of the source bytes and whose marker count is
exactly the `visibcolorchanges` the loop accumulated. -/
theorem fillWin_complete (l : List Nat) (n : Nat)
    (h : (fillWin l n).hitTerm = false) :
    countSpecial (fillWin l n).window = (fillWin l n).visib ∧
      ∃ t, (fillWin l n).window ++ t = l := by
  induction l generalizing n with
  | nil =>
    cases n with
    | zero => exact ⟨rfl, [], rfl⟩
    | succ m => simp [fillWin] at h
  | cons c rest ih =>
    cases n with
    | zero => exact ⟨rfl, c :: rest, rfl⟩
    | succ m =>
      by_cases hc : c = 0
      · simp [fillWin, hc] at h
      · by_cases hs : c = SPECIAL_CHAR
        · have hrec := ih (m + 1)
          simp only [fillWin, if_neg hc, if_pos hs] at h ⊢
          obtain ⟨hcount, t, ht⟩ := hrec h
          refine ⟨?_, t, by simp [ht]⟩
          simp [countSpecial, List.countP_cons, hs] at hcount ⊢
          omega
        · have hrec := ih m
          simp only [fillWin, if_neg hc, if_neg hs] at h ⊢
          obtain ⟨hcount, t, ht⟩ := hrec h
          refine ⟨?_, t, by simp [ht]⟩
          simp only [countSpecial, List.countP_cons] at hcount ⊢
          have : (c == SPECIAL_CHAR) = false := by simp [hs]
          simp [this, hcount]

/-- A window fill that copied the terminator collected strictly fewer than
the requested number of non-marker bytes. -/
theorem fillWin_hitTerm_printable (l : List Nat) (n : Nat)
    (h : (fillWin l n).hitTerm = true) :
    printableCount (fillWin l n).window < n := by
  induction l generalizing n with
  | nil =>
    cases n with
    | zero => simp [fillWin] at h
    | succ m => simp [fillWin, printableCount, countSpecial]
  | cons c rest ih =>
    cases n with
    | zero => simp [fillWin] at h
    | succ m =>
      by_cases hc : c = 0
      · simp [fillWin, hc, printableCount, countSpecial]
      · by_cases hs : c = SPECIAL_CHAR
        · have hrec := ih (m + 1)
          simp only [fillWin, if_neg hc, if_pos hs] at h ⊢
          have hlt := hrec h
          have hcle := countSpecial_le_length (fillWin rest (m + 1)).window
          simp only [printableCount, countSpecial, List.countP_cons,
            List.length_cons] at hlt ⊢
          have : (c == SPECIAL_CHAR) = true := by simp [hs]
          simp only [this, if_pos] at *
          omega
        · have hrec := ih m
          simp only [fillWin, if_neg hc, if_neg hs] at h ⊢
          have hlt := hrec h
          have hcle := countSpecial_le_length (fillWin rest m).window
          simp only [printableCount, countSpecial, List.countP_cons,
            List.length_cons] at hlt hcle ⊢
          have : (c == SPECIAL_CHAR) = false := by simp [hs]
          simp only [this] at *
          omega

/-- Path lemma: the short-circuit branch of `print_scroll`
(`strlen(buf) - colorchanges <= show`). -/
theorem print_scroll_short (show_ step start : Nat) (buf0 : List Nat) (pm : Nat)
    (h : printableCount (remapLines buf0) ≤ show_) :
    print_scroll show_ step start buf0 pm =
      ⟨(remapLines buf0).take (pm - 1), false, start⟩ := by
  unfold printableCount at h
  simp only [print_scroll]
  rw [if_pos h]

/-- Path lemma: the early-return branch of `print_scroll` (the window-fill
loop copied the terminator, `if (!p[j]) return;`). -/
theorem print_scroll_term (show_ step start : Nat) (buf0 : List Nat) (pm : Nat)
    (h1 : ¬ printableCount (remapLines buf0) ≤ show_)
    (h2 : (fillWin ((remapLines buf0).drop (skipMarkers (remapLines buf0) start))
        show_).hitTerm = true) :
    print_scroll show_ step start buf0 pm =
      ⟨(fillWin ((remapLines buf0).drop (skipMarkers (remapLines buf0) start))
          show_).window,
        false, skipMarkers (remapLines buf0) start⟩ := by
  unfold printableCount at h1
  simp only [print_scroll]
  rw [if_neg h1, if_pos h2]

/-- Path lemma: the completed scrolling branch of `print_scroll`
(marker redistribution, step advance with wraparound, style reset). -/
theorem print_scroll_full (show_ step start : Nat) (buf0 : List Nat) (pm : Nat)
    (h1 : ¬ printableCount (remapLines buf0) ≤ show_)
    (h2 : (fillWin ((remapLines buf0).drop (skipMarkers (remapLines buf0) start))
        show_).hitTerm = false) :
    print_scroll show_ step start buf0 pm =
      ⟨List.replicate
          (countSpecial ((remapLines buf0).take (skipMarkers (remapLines buf0) start)))
          SPECIAL_CHAR ++
        (fillWin ((remapLines buf0).drop (skipMarkers (remapLines buf0) start))
          show_).window ++
        List.replicate
          (countSpecial (remapLines buf0) -
            countSpecial ((remapLines buf0).take (skipMarkers (remapLines buf0) start)) -
            (fillWin ((remapLines buf0).drop (skipMarkers (remapLines buf0) start))
              show_).visib)
          SPECIAL_CHAR,
        true,
        if (remapLines buf0).getD (skipMarkers (remapLines buf0) start + step) 0 = 0
          then 0 else skipMarkers (remapLines buf0) start + step⟩ := by
  unfold printableCount at h1
  simp only [print_scroll]
  rw [if_neg h1, if_neg (by simp [h2])]

theorem takeWhile_isEmpty (p : Nat → Bool) (l : List Nat) (hp : p 0 = false) :
    (l.takeWhile p).isEmpty = true ↔ p (l.headD 0) = false := by
  cases l with
  | nil => simp [hp]
  | cons c t => by_cases hc : p c <;> simp [List.takeWhile_cons, hc]

theorem scanU_eq_none_iff (a : List Nat) :
    scanU a = none ↔ acceptsU a = false := by
  unfold scanU acceptsU
  simp only [drop_length_takeWhile]
  rw [← takeWhile_isEmpty isDigit
    ((a.dropWhile isSpace).drop
      (if (a.dropWhile isSpace).headD 0 == 43 || (a.dropWhile isSpace).headD 0 == 45
        then 1 else 0)) (by decide)]
  by_cases h : (((a.dropWhile isSpace).drop
      (if (a.dropWhile isSpace).headD 0 == 43 || (a.dropWhile isSpace).headD 0 == 45
        then 1 else 0)).takeWhile isDigit).isEmpty = true
  · simp [h]
  · simp [h]

/-! ### Claim theorems -/

/-- C6 counterexample: the argument "-3 hi" has "-3" as its first
whitespace-delimited token, which is not a digit string (it does not
parse as a non-negative integer), yet `parse_scroll_arg` accepts the
argument without the fatal error: the `%u` conversion consumes the
optional sign and stores the negated value 4294967293 as the visible
width. -/
theorem C6_counterexample :
    (([45, 51, 32, 104, 105] : List Nat).dropWhile isSpace).takeWhile
        (fun c => !isSpace c) = [45, 51] ∧
      ([45, 51] : List Nat).all isDigit = false ∧
      (parse_scroll_arg (some [45, 51, 32, 104, 105])).isSome = true ∧
      (parse_scroll_arg (some [45, 51, 32, 104, 105])).map ScrollConfig.show_ =
        some 4294967293 := by
  decide

/-- C6 amended: configuration fails (the `CRIT_ERR` branch of
`parse_scroll_arg`, modelled as a `none` result) exactly for a NULL
argument or an argument the `%u` conversion rejects: no decimal digit
after the optional leading whitespace and at most one `+` or `-` sign
byte. Signed tokens, including negative ones, are accepted with the
value converted as by `strtoul` into the range of `unsigned int`; every
accepted argument constructs a field, and the render model is a total
function, so rendering never fails afterwards. -/
theorem C6_config_error_iff :
    parse_scroll_arg none = none ∧
      ∀ a : List Nat, (parse_scroll_arg (some a) = none ↔ acceptsU a = false) := by
  refine ⟨rfl, fun a => ?_⟩
  rw [← scanU_eq_none_iff]
  cases hsc : scanU a with
  | none => simp [parse_scroll_arg, hsc]
  | some v =>
    obtain ⟨w, n1⟩ := v
    simp [parse_scroll_arg, hsc]

/-- C7 counterexample: on the argument "1 5" (a width token, then an
integer token followed by nothing), the claim says the trailing token is
consumed as step, giving step 5 and empty literal text; the code instead
resets step to 1 and keeps the token as the literal text, so the stored
text is one pad space followed by "5". -/
theorem C7_counterexample :
    parse_scroll_arg (some [49, 32, 53]) =
      some { show_ := 1, step := 1, text := [32, 53], start := 0 } ∧
      (parse_scroll_arg (some [49, 32, 53])).map ScrollConfig.step ≠ some 5 := by
  decide

/-- C7 amended: when a second integer token is followed by nothing
(consuming it would leave the literal text empty), `parse_scroll_arg`
keeps step at its default 1 and treats that token as the literal text,
which is stored after the width-many pad spaces. -/
theorem C7_trailing_token_defaults (a : List Nat) (w n1 st n2 : Nat)
    (h1 : scanU a = some (w, n1))
    (h2 : scanU (a.drop n1) = some (st, n2))
    (h3 : a.drop (n1 + n2) = []) :
    parse_scroll_arg (some a) =
      some { show_ := w, step := 1,
             text := List.replicate w 32 ++ a.drop n1, start := 0 } := by
  simp [parse_scroll_arg, h1, h2, h3]

/-- C7 witness: the amended behavior evaluated on the argument "1 5". -/
theorem C7_witness :
    scanU [49, 32, 53] = some (1, 2) ∧
      scanU ([49, 32, 53].drop 2) = some (5, 1) ∧
      [49, 32, 53].drop (2 + 1) = [] ∧
      parse_scroll_arg (some [49, 32, 53]) =
        some { show_ := 1, step := 1,
               text := List.replicate 1 32 ++ [49, 32, 53].drop 2, start := 0 } :=
  ⟨by decide, by decide, by decide,
    C7_trailing_token_defaults [49, 32, 53] 1 2 5 1 (by decide) (by decide) (by decide)⟩

/-- C8 counterexample: the argument "0 abc" is accepted by
`parse_scroll_arg` (no error) and yields a field with visible width 0,
so the claimed invariant visible_width >= 1 after successful
configuration is false. -/
theorem C8_counterexample :
    parse_scroll_arg (some [48, 32, 97, 98, 99]) =
      some { show_ := 0, step := 1, text := [97, 98, 99], start := 0 } ∧
      ¬ 1 ≤ ((parse_scroll_arg (some [48, 32, 97, 98, 99])).map
        ScrollConfig.show_).getD 1 := by
  decide

/-- C8 amended: a successful configuration stores the converted value of
the first integer token as the visible width with no further check, so
the width may be 0; no lower bound is enforced. -/
theorem C8_width_unchecked (a : List Nat) (w n1 : Nat)
    (h : scanU a = some (w, n1)) :
    ∃ st, parse_scroll_arg (some a) = some st ∧ st.show_ = w := by
  simp only [parse_scroll_arg]
  rw [h]
  exact ⟨_, rfl, rfl⟩

/-- C8 witness: the amended statement evaluated on the argument "0 abc". -/
theorem C8_witness :
    scanU [48, 32, 97, 98, 99] = some (0, 2) ∧
      ∃ st, parse_scroll_arg (some [48, 32, 97, 98, 99]) = some st ∧
        st.show_ = 0 :=
  ⟨by decide, C8_width_unchecked [48, 32, 97, 98, 99] 0 2 (by decide)⟩

/-- C1: evaluation at the failing input. With visible width 2, step 3 and
evaluated text "abcd" (printable length 4, so the scrolling path is
taken), the first render leaves the cursor at 3; the second render's
window-fill loop copies the terminator after one character, and the call
returns "d": one printable character instead of the claimed two, with no
space padding (the padding loop in the source is unreachable because the
fill loop returns first, contradicting the comment above it). -/
theorem C1_code_bug_eval :
    (print_scroll 2 3 0 [97, 98, 99, 100] 100).start = 3 ∧
      (print_scroll 2 3 3 [97, 98, 99, 100] 100).out = [100] ∧
      printableCount (print_scroll 2 3 3 [97, 98, 99, 100] 100).out = 1 ∧
      (print_scroll 2 3 3 [97, 98, 99, 100] 100).out ≠ [100, 32] ∧
      ¬ printableCount (remapLines [97, 98, 99, 100]) ≤ 2 := by
  decide

/-- C2 counterexample: with visible width 2, step 3 and evaluated text
"a#bc" (one marker, printable length 3, scrolling path), the first render
moves the cursor to 3; the second render hits the terminator mid-fill and
returns the bare partial window "c" with zero markers, while the text
holds one marker, so marker conservation fails on this non-short-circuit
render. -/
theorem C2_counterexample :
    (print_scroll 2 3 0 [97, 1, 98, 99] 100).start = 3 ∧
      ¬ printableCount (remapLines [97, 1, 98, 99]) ≤ 2 ∧
      countSpecial (print_scroll 2 3 3 [97, 1, 98, 99] 100).out = 0 ∧
      countSpecial (remapLines [97, 1, 98, 99]) = 1 := by
  decide

/-- C2 amended: marker conservation holds on every non-short-circuit
render whose window fill completes without copying the terminator: the
front, in-window and trailing marker counts of the produced slice sum to
the total marker count of the evaluated text (when the fill copies the
terminator, the call returns the partial window and drops the markers
outside it). -/
theorem C2_marker_conservation (show_ step start : Nat) (buf0 : List Nat) (pm : Nat)
    (h1 : ¬ printableCount (remapLines buf0) ≤ show_)
    (h2 : (fillWin ((remapLines buf0).drop (skipMarkers (remapLines buf0) start))
        show_).hitTerm = false) :
    countSpecial (print_scroll show_ step start buf0 pm).out =
      countSpecial (remapLines buf0) := by
  rw [print_scroll_full show_ step start buf0 pm h1 h2]
  obtain ⟨hcw, t, ht⟩ :=
    fillWin_complete ((remapLines buf0).drop (skipMarkers (remapLines buf0) start))
      show_ h2
  have htot : countSpecial (remapLines buf0) =
      countSpecial ((remapLines buf0).take (skipMarkers (remapLines buf0) start)) +
        countSpecial ((remapLines buf0).drop (skipMarkers (remapLines buf0) start)) := by
    rw [← countSpecial_append, List.take_append_drop]
  have hwle := countSpecial_append
    (fillWin ((remapLines buf0).drop (skipMarkers (remapLines buf0) start))
      show_).window t
  rw [ht] at hwle
  simp only [countSpecial_append, countSpecial_replicate]
  omega

/-- C2 witness: the conserving case evaluated on text "a#bc" with visible
width 2 and step 1 from cursor 0 (window "a#b", one front/total marker). -/
theorem C2_witness :
    ¬ printableCount (remapLines [97, 1, 98, 99]) ≤ 2 ∧
      (fillWin ((remapLines [97, 1, 98, 99]).drop
        (skipMarkers (remapLines [97, 1, 98, 99]) 0)) 2).hitTerm = false ∧
      countSpecial (print_scroll 2 1 0 [97, 1, 98, 99] 100).out =
        countSpecial (remapLines [97, 1, 98, 99]) :=
  ⟨by decide, by decide,
    C2_marker_conservation 2 1 0 [97, 1, 98, 99] 100 (by decide) (by decide)⟩

/-- C3: when the printable length of the evaluated text is at most the
visible width, the render takes the short-circuit path: with enough
output capacity the whole (newline-remapped) text is copied verbatim and
the cursor is left untouched, as are the other fields, which the model
render never writes at all. -/
theorem C3_short_circuit_verbatim (show_ step start : Nat) (buf0 : List Nat)
    (pm : Nat)
    (h1 : printableCount (remapLines buf0) ≤ show_)
    (h2 : (remapLines buf0).length < pm) :
    (print_scroll show_ step start buf0 pm).out = remapLines buf0 ∧
      (print_scroll show_ step start buf0 pm).start = start := by
  rw [print_scroll_short show_ step start buf0 pm h1]
  refine ⟨List.take_of_length_le (by omega), rfl⟩

/-- C3 witness: visible width 10 and text "hi" return "hi" unchanged with
the cursor still 0, the worked example of the claim. -/
theorem C3_witness :
    printableCount (remapLines [104, 105]) ≤ 10 ∧
      (remapLines [104, 105]).length < 100 ∧
      (print_scroll 10 1 0 [104, 105] 100).out = remapLines [104, 105] ∧
      (print_scroll 10 1 0 [104, 105] 100).start = 0 := by
  refine ⟨by decide, by decide, ?_, ?_⟩
  · exact (C3_short_circuit_verbatim 10 1 0 [104, 105] 100 (by decide) (by decide)).1
  · exact (C3_short_circuit_verbatim 10 1 0 [104, 105] 100 (by decide) (by decide)).2

/-- C4 counterexample: with output capacity 2, visible width 3 and text
"abcde" the scrolling path composes the slice "abc" and writes all three
bytes (plus the terminator) through `strcpy`, exceeding the capacity:
the scrolling path performs no truncation at all. -/
theorem C4_counterexample :
    (print_scroll 3 1 0 [97, 98, 99, 100, 101] 2).out = [97, 98, 99] ∧
      2 < (print_scroll 3 1 0 [97, 98, 99, 100, 101] 2).out.length := by
  decide

/-- C4 amended: the silent truncation to the caller's capacity happens
only on the short-circuit path, whose `snprintf` writes at most
capacity − 1 bytes before the terminator; the scrolling path ignores the
capacity argument. -/
theorem C4_short_circuit_truncates (show_ step start : Nat) (buf0 : List Nat)
    (pm : Nat)
    (h : printableCount (remapLines buf0) ≤ show_) :
    (print_scroll show_ step start buf0 pm).out.length ≤ pm - 1 := by
  rw [print_scroll_short show_ step start buf0 pm h]
  rw [List.length_take]
  exact min_le_left _ _

/-- C4 witness: the short-circuit truncation evaluated with capacity 2 on
text "hello" and visible width 10 (output is the single byte "h"). -/
theorem C4_witness :
    printableCount (remapLines [104, 101, 108, 108, 111]) ≤ 10 ∧
      (print_scroll 10 1 0 [104, 101, 108, 108, 111] 2).out.length ≤ 2 - 1 :=
  ⟨by decide, C4_short_circuit_truncates 10 1 0 [104, 101, 108, 108, 111] 2 (by decide)⟩

/-- C5 counterexample: with visible width 1, step 3 and the fixed text
"ab##" (two trailing markers), the first render advances the cursor to 3;
the second render skips the marker at 3 to reach offset 4, hits the
terminator at once and returns, leaving the cursor at 4 — the terminator
position of a length-4 text, which is neither a valid in-text offset nor
0, on a non-short-circuit render. -/
theorem C5_counterexample :
    (print_scroll 1 3 (print_scroll 1 3 0 [97, 98, 1, 1] 100).start
        [97, 98, 1, 1] 100).start = 4 ∧
      ([97, 98, 1, 1] : List Nat).length = 4 ∧
      ¬ ((print_scroll 1 3 (print_scroll 1 3 0 [97, 98, 1, 1] 100).start
          [97, 98, 1, 1] 100).start < 4 ∨
        (print_scroll 1 3 (print_scroll 1 3 0 [97, 98, 1, 1] 100).start
          [97, 98, 1, 1] 100).start = 0) ∧
      ¬ printableCount (remapLines [97, 98, 1, 1]) ≤ 1 := by
  decide

/-- C5 amended: a render keeps the cursor within the terminated text: if
the cursor is at most the text length before the call, it is at most the
text length afterwards, on every path — but it may come to rest exactly
at the terminator position (as the counterexample shows), and on an
early-terminated fill it is not advanced by the step at all. -/
theorem C5_cursor_bounded (show_ step start : Nat) (buf0 : List Nat) (pm : Nat)
    (h : start ≤ buf0.length) :
    (print_scroll show_ step start buf0 pm).start ≤ buf0.length := by
  have hlen : (remapLines buf0).length = buf0.length := List.length_map _ _
  have hs : start ≤ (remapLines buf0).length := by omega
  have hskip : skipMarkers (remapLines buf0) start ≤ buf0.length := by
    have := skipMarkers_le hs
    omega
  by_cases h1 : printableCount (remapLines buf0) ≤ show_
  · rw [print_scroll_short show_ step start buf0 pm h1]
    exact h
  · by_cases h2 : (fillWin ((remapLines buf0).drop
        (skipMarkers (remapLines buf0) start)) show_).hitTerm = true
    · rw [print_scroll_term show_ step start buf0 pm h1 h2]
      exact hskip
    · have heq := print_scroll_full show_ step start buf0 pm h1
        (Bool.not_eq_true _ ▸ h2)
      have hst : (print_scroll show_ step start buf0 pm).start =
          if (remapLines buf0).getD (skipMarkers (remapLines buf0) start + step) 0 = 0
            then 0 else skipMarkers (remapLines buf0) start + step := by
        rw [heq]
      rw [hst]
      by_cases h3 : (remapLines buf0).getD
          (skipMarkers (remapLines buf0) start + step) 0 = 0
      · rw [if_pos h3]
        omega
      · rw [if_neg h3]
        have := getD_ne_zero_lt h3
        omega

/-- C5 witness: the bound evaluated on text "abc" with width 1, step 1,
cursor 0. -/
theorem C5_witness :
    (0 : Nat) ≤ ([97, 98, 99] : List Nat).length ∧
      (print_scroll 1 1 0 [97, 98, 99] 10).start ≤ ([97, 98, 99] : List Nat).length :=
  ⟨by decide, C5_cursor_bounded 1 1 0 [97, 98, 99] 10 (by decide)⟩

/-- C9: evaluation at the failing input. On the fixed marker-free text
"abcd" (printable length 4) with visible width 3 and step 2, the claim
requires the cursor to be back at 0 after at most 2 calls with the slice
repeating; instead the first render shows "abc" and moves the cursor to
2, and from then on every render hits the terminator mid-window, returns
"cd" and leaves the cursor stuck at 2, so the sequence never returns to
the first slice. -/
theorem C9_code_bug_eval :
    (print_scroll 3 2 0 [97, 98, 99, 100] 100).out = [97, 98, 99] ∧
      (print_scroll 3 2 0 [97, 98, 99, 100] 100).start = 2 ∧
      (print_scroll 3 2 2 [97, 98, 99, 100] 100).start = 2 ∧
      (print_scroll 3 2 2 [97, 98, 99, 100] 100).out = [99, 100] ∧
      (print_scroll 3 2 2 [97, 98, 99, 100] 100).start ≠ 0 ∧
      (print_scroll 3 2 2 [97, 98, 99, 100] 100).out ≠
        (print_scroll 3 2 0 [97, 98, 99, 100] 100).out ∧
      ¬ printableCount (remapLines [97, 98, 99, 100]) ≤ 3 := by
  decide

/-- C10: on the scrolling path, when the window-fill loop copies the
terminator before collecting the full visible width, the render returns
right there: the output is exactly the partial window (no front markers
prepended, no trailing markers appended), it holds strictly fewer than
visible-width printable characters, no style-reset escape is appended,
and the cursor keeps the value the marker-skipping loop gave it, without
the step advance. -/
theorem C10_early_return (show_ step start : Nat) (buf0 : List Nat) (pm : Nat)
    (h1 : ¬ printableCount (remapLines buf0) ≤ show_)
    (h2 : (fillWin ((remapLines buf0).drop (skipMarkers (remapLines buf0) start))
        show_).hitTerm = true) :
    (print_scroll show_ step start buf0 pm).out =
        (fillWin ((remapLines buf0).drop (skipMarkers (remapLines buf0) start))
          show_).window ∧
      (print_scroll show_ step start buf0 pm).reset = false ∧
      (print_scroll show_ step start buf0 pm).start =
        skipMarkers (remapLines buf0) start ∧
      printableCount (print_scroll show_ step start buf0 pm).out < show_ := by
  rw [print_scroll_term show_ step start buf0 pm h1 h2]
  exact ⟨rfl, rfl, rfl, fillWin_hitTerm_printable _ _ h2⟩

/-- C10 witness: the early return evaluated on text "abcd", visible width
2, step 3, cursor 3 (the state reached after one render from cursor 0). -/
theorem C10_witness :
    ¬ printableCount (remapLines [97, 98, 99, 100]) ≤ 2 ∧
      (fillWin ((remapLines [97, 98, 99, 100]).drop
        (skipMarkers (remapLines [97, 98, 99, 100]) 3)) 2).hitTerm = true ∧
      ((print_scroll 2 3 3 [97, 98, 99, 100] 100).out =
          (fillWin ((remapLines [97, 98, 99, 100]).drop
            (skipMarkers (remapLines [97, 98, 99, 100]) 3)) 2).window ∧
        (print_scroll 2 3 3 [97, 98, 99, 100] 100).reset = false ∧
        (print_scroll 2 3 3 [97, 98, 99, 100] 100).start =
          skipMarkers (remapLines [97, 98, 99, 100]) 3 ∧
        printableCount (print_scroll 2 3 3 [97, 98, 99, 100] 100).out < 2) :=
  ⟨by decide, by decide,
    C10_early_return 2 3 3 [97, 98, 99, 100] 100 (by decide) (by decide)⟩

end Scroll
